import Mathlib

/-!
Verification of the kodi_cli_remote command registry and request-translation
engine (package kodicommunicator, file administration.go of the repository).
The Go code is shallowly embedded: Go maps become association lists (JSON
marshalling of a Go map writes its keys in sorted byte order, so parameter
maps are kept in that sorted order), Go errors become `Except String`, and
the network is an oracle assigning to each HTTP exchange its outcome.
-/

namespace Kodi

/-! ## JSON values (response bodies)

A minimal JSON value type for the decoded response bodies.  Arrays and
booleans never occur in the error envelopes inspected by the program, so
they are not represented. -/

mutual

inductive JValue where
  | jnull
  | jnum (n : Int)
  | jstr (s : String)
  | jobj (fields : JFields)

inductive JFields where
  | fnil
  | fcons (key : String) (val : JValue) (rest : JFields)

end

/-- Field lookup in a JSON object (keys assumed unique, as in the bodies
the server sends). -/
def JFields.get? : JFields → String → Option JValue
  | .fnil, _ => none
  | .fcons k v rest, s => if k = s then some v else JFields.get? rest s

/-! ## Go string helpers

`goSplit` is strings.Split for a one-character separator, the only form the
source uses (`strings.Split(params[len(params)-1], ":")`). -/

def splitChars (sep : Char) : List Char → List Char → List String
  | [], acc => [String.mk acc.reverse]
  | c :: cs, acc =>
      if c = sep then String.mk acc.reverse :: splitChars sep cs []
      else splitChars sep cs (c :: acc)

def goSplit (s : String) (sep : Char) : List String := splitChars sep s.data []

def digitsVal : List Char → Nat → Nat
  | [], acc => acc
  | c :: cs, acc => digitsVal cs (acc * 10 + (c.toNat - 48))

/-- strconv.Atoi error text for input that is not a well-formed integer. -/
def atoiInvalid (s : String) : String :=
  "strconv.Atoi: parsing \"" ++ s ++ "\": invalid syntax"

/-- strconv.Atoi error text for an integer that overflows int64. -/
def atoiRange (s : String) : String :=
  "strconv.Atoi: parsing \"" ++ s ++ "\": value out of range"

def parseDigits : List Char → Option Nat
  | [] => none
  | cs => if cs.all Char.isDigit then some (digitsVal cs 0) else none

/-- strconv.Atoi: an optional sign followed by decimal digits, with the
int64 range check of the 64-bit platforms the tool targets. -/
def goAtoi (s : String) : Except String Int :=
  let signed : Int × List Char :=
    match s.data with
    | '-' :: rest => (-1, rest)
    | '+' :: rest => (1, rest)
    | cs => (1, cs)
  match parseDigits signed.2 with
  | none => .error (atoiInvalid s)
  | some n =>
      let v : Int := signed.1 * (n : Int)
      if v > 9223372036854775807 ∨ v < -9223372036854775808 then
        .error (atoiRange s)
      else .ok v

/-! ## Parameter payloads

A parameter map is an association list of string keys to values.  The only
value shapes the builders produce are integers, strings, and the seek time
map (a Go map[string]int with the four fixed keys hours, minutes, seconds,
milliseconds), represented by `ptime`. -/

inductive PValue where
  | pnum (n : Int)
  | pstr (s : String)
  | ptime (hours minutes seconds milliseconds : Int)
deriving DecidableEq

/-! ## parseTimeNumber and the seek parameter builder -/

/-- parseTimeNumber parses a number and makes sure that the number is
at least 0 and at most 59 (administration.go lines 400-409). -/
def parseTimeNumber (number : String) : Except String Int :=
  match goAtoi number with
  | .error e => .error e
  | .ok num =>
      if num > 59 ∨ num < 0 then
        .error ("A time-number needs to be between 0 and 59, but was " ++ number)
      else .ok num

/-- Second half of the seek time branch: after the optional hours part was
consumed, the remaining parts must be exactly minutes and seconds
(administration.go lines 246-262).  The milliseconds entry of the Go
timeMap is never assigned and stays 0. -/
def seekMMSS (hours : Int) (hms : List String) : Except String (List (String × PValue)) :=
  if hms.length = 2 then
    match parseTimeNumber (hms.get! 0) with
    | .error e => .error e
    | .ok minutes =>
        match parseTimeNumber (hms.get! 1) with
        | .error e => .error e
        | .ok seconds =>
            .ok [("playerid", .pnum 1), ("value", .ptime hours minutes seconds 0)]
  else .error "Illegal parameter. See \"help seek\" for usage information."

/-- First half of the seek time branch: if the colon-split has exactly 3
parts, the first is parsed as hours and dropped (`hms = hms[1:]`,
administration.go lines 238-245). -/
def seekTimeFromParts (hms : List String) : Except String (List (String × PValue)) :=
  if hms.length = 3 then
    match parseTimeNumber (hms.get! 0) with
    | .error e => .error e
    | .ok hours => seekMMSS hours hms.tail
  else seekMMSS 0 hms

/-- CreateParameterMap of the seek command (administration.go lines
210-263). -/
def seekCreateParameterMap (params : List String) : Except String (List (String × PValue)) :=
  match params with
  | [] => .error "Not enough parameters. See \"help seek\" for usage information."
  | p0 :: _ =>
      let val : String :=
        if p0 = "+" then "smallforward"
        else if p0 = "++" then "bigforward"
        else if p0 = "-" then "smallbackward"
        else if p0 = "--" then "bigbackward"
        else ""
      if val.length > 0 then
        .ok [("playerid", .pnum 1), ("value", .pstr val)]
      else
        seekTimeFromParts (goSplit (params.getLast!) ':')

/-- CreateParameterMap of the speed command.  The Go code indexes
params[0]; it would panic on an empty list, a case no claim concerns, so
the default "" of head! stands in there. -/
def speedCreateParameterMap (params : List String) : Except String (List (String × PValue)) :=
  .ok [("playerid", .pnum 1), ("speed", .pstr params.head!)]

/-! ## The command registry -/

structure Command where
  CliName : String
  KodiName : String
  Description : String
  ParametersDescription : List (String × String)
  CreateParameterMap : List String → Except String (List (String × PValue))

/-- The CommandMap of administration.go lines 155-396 as an association
list (one entry per Go map key, same keys, same descriptor contents). -/
def CommandMap : List (String × Command) := [
  ("play", { CliName := "play", KodiName := "Player.PlayPause",
             Description := "Resumes the current playback from pause state.",
             ParametersDescription := [],
             CreateParameterMap := fun _ => .ok [("playerid", .pnum 1)] }),
  ("pause", { CliName := "pause", KodiName := "Player.PlayPause",
              Description := "Pauses the current playback.",
              ParametersDescription := [],
              CreateParameterMap := fun _ => .ok [("playerid", .pnum 1)] }),
  ("stop", { CliName := "stop", KodiName := "Player.Stop",
             Description := "Stops the current playback.",
             ParametersDescription := [],
             CreateParameterMap := fun _ => .ok [("playerid", .pnum 1)] }),
  ("mute", { CliName := "mute", KodiName := "Application.SetMute",
             Description := "Mutes or unmutes the audio.",
             ParametersDescription := [],
             CreateParameterMap := fun _ => .ok [("mute", .pstr "toggle")] }),
  ("seek", { CliName := "seek", KodiName := "Player.Seek",
             Description := "Jumps to the given time.",
             ParametersDescription := [
               ("-/+", "Jump back/forth n seconds."),
               ("--/++", "Jump back/forth n seconds."),
               ("[hh:]mm:ss", "Junp to hours:minutes:seconds (hours optional)")],
             CreateParameterMap := seekCreateParameterMap }),
  ("speed", { CliName := "speed", KodiName := "Player.Speed",
              Description := "Set the playback speed.",
              ParametersDescription := [("speed", "Speed as integer")],
              CreateParameterMap := speedCreateParameterMap }),
  ("action", { CliName := "action", KodiName := "Input.Select",
               Description := "Selects the current selection.",
               ParametersDescription := [],
               CreateParameterMap := fun _ => .ok [] }),
  ("context", { CliName := "context", KodiName := "Input.ContextMenu",
                Description := "Opens the context menu.",
                ParametersDescription := [],
                CreateParameterMap := fun _ => .ok [] }),
  ("info", { CliName := "info", KodiName := "Input.Info",
             Description := "Opens the info view.",
             ParametersDescription := [],
             CreateParameterMap := fun _ => .ok [] }),
  ("home", { CliName := "home", KodiName := "Input.Home",
             Description := "Returns to the home screen.",
             ParametersDescription := [],
             CreateParameterMap := fun _ => .ok [] }),
  ("back", { CliName := "back", KodiName := "Input.Back",
             Description := "Returns to the previous view.",
             ParametersDescription := [],
             CreateParameterMap := fun _ => .ok [] }),
  ("left", { CliName := "left", KodiName := "Input.Left",
             Description := "Sends the cursor one item to the left",
             ParametersDescription := [],
             CreateParameterMap := fun _ => .ok [] }),
  ("right", { CliName := "right", KodiName := "Input.Right",
              Description := "Sends the cursor one item to the right.",
              ParametersDescription := [],
              CreateParameterMap := fun _ => .ok [] }),
  ("up", { CliName := "up", KodiName := "Input.Up",
           Description := "Sends the cursor one item up.",
           ParametersDescription := [],
           CreateParameterMap := fun _ => .ok [] }),
  ("down", { CliName := "down", KodiName := "Input.Down",
             Description := "Sends the cursor one item down.",
             ParametersDescription := [],
             CreateParameterMap := fun _ => .ok [] }),
  ("notify", { CliName := "notify", KodiName := "GUI.ShowNotification",
               Description := "Displays a notification on the screen.",
               ParametersDescription := [
                 ("title", "The title of the notification."),
                 ("message", "The message of the notification."),
                 ("displaytime", "(optional) The time in milliseconds the notification is displayed.")],
               CreateParameterMap := fun _ => .ok [] }),
  ("clean", { CliName := "clean", KodiName := "VideoLibrary.Clean",
              Description := "Cleans the video library from non-existent items.",
              ParametersDescription := [],
              CreateParameterMap := fun _ => .ok [] }),
  ("update", { CliName := "update", KodiName := "VideoLibrary.Scan",
               Description := "Scans the video sources for new library items.",
               ParametersDescription := [],
               CreateParameterMap := fun _ => .ok [] })]

/-- The 18 registered CLI names, in registry order. -/
def commandNames : List String :=
  ["play", "pause", "stop", "mute", "seek", "speed", "action", "context",
   "info", "home", "back", "left", "right", "up", "down", "notify", "clean",
   "update"]

/-- Go map indexing `CommandMap[cmd]` with the comma-ok idiom: some on a
hit, none on a miss. -/
def lookupCmd : List (String × Command) → String → Option Command
  | [], _ => none
  | (k, c) :: rest, s => if k = s then some c else lookupCmd rest s

/-- GetCommandForName (administration.go lines 413-416) returns
`(*command, success)`.  On a map miss `command` is the nil pointer and the
unconditional dereference `*command` faults; the fault is modelled as
`none`, a normal return as `some (command, true)`. -/
def GetCommandForName (cmd : String) : Option (Command × Bool) :=
  match lookupCmd CommandMap cmd with
  | some command => some (command, true)
  | none => none

/-- getRepeatCount (administration.go lines 420-430): for the four
directional actions with a non-empty token list, try to parse the last
token; on a parse error or a value below 1 the count is 1 and the list is
unchanged, otherwise the token is dropped and its value is the count. -/
def getRepeatCount (action : String) (params : List String) : Nat × List String :=
  if params.length > 0 ∧ (action = "down" ∨ action = "up" ∨ action = "left" ∨ action = "right") then
    match goAtoi (params.getLast!) with
    | .error _ => (1, params)
    | .ok num => if num < 1 then (1, params) else (num.toNat, params.dropLast)
  else (1, params)

/-! ## JSON serialization (encoding/json on the shapes the program marshals)

encoding/json writes struct fields in declaration order using their tags
and map keys in sorted byte order; the parameter lists built above are
already in that sorted key order, so the serializer emits them as is. -/

def hexDigit (n : Nat) : Char :=
  if n < 10 then Char.ofNat (48 + n) else Char.ofNat (87 + n)

/-- The escaping encoding/json applies inside a JSON string (HTML escaping
of angle brackets and ampersand included, as in the default encoder). -/
def escapeChar (c : Char) : String :=
  if c = '"' then "\\\""
  else if c = '\\' then "\\\\"
  else if c = '\n' then "\\n"
  else if c = '\r' then "\\r"
  else if c = '\t' then "\\t"
  else if c = '<' then "\\u003c"
  else if c = '>' then "\\u003e"
  else if c = '&' then "\\u0026"
  else if c.toNat < 32 then "\\u00" ++ String.mk [hexDigit (c.toNat / 16), hexDigit (c.toNat % 16)]
  else String.mk [c]

def escapeChars : List Char → String
  | [] => ""
  | c :: cs => escapeChar c ++ escapeChars cs

def escapeJsonString (s : String) : String := escapeChars s.data

/-- Marshalling of one parameter value.  The seek time map is a Go
map[string]int, marshalled with its four keys in sorted order. -/
def serializePValue : PValue → String
  | .pnum n => toString n
  | .pstr s => "\"" ++ escapeJsonString s ++ "\""
  | .ptime h m s ms =>
      "\x7b\"hours\":" ++ toString h ++ ",\"milliseconds\":" ++ toString ms ++
      ",\"minutes\":" ++ toString m ++ ",\"seconds\":" ++ toString s ++ "\x7d"

def serializeFieldList : List (String × PValue) → String
  | [] => ""
  | [(k, v)] => "\"" ++ escapeJsonString k ++ "\":" ++ serializePValue v
  | (k, v) :: rest =>
      "\"" ++ escapeJsonString k ++ "\":" ++ serializePValue v ++ "," ++ serializeFieldList rest

def serializeParams (ps : List (String × PValue)) : String :=
  "\x7b" ++ serializeFieldList ps ++ "\x7d"

/-! ## The JSON-RPC request envelope -/

/-- CommandRequest represents all parameters of a JSONRPC call
(administration.go lines 139-144); the Params field carries the json tag
params,omitempty. -/
structure CommandRequest where
  JSONrpc : String
  Method : String
  Params : List (String × PValue)
  ID : Int

/-- SetValues sets the method and the parameters for the JSONRPC call
(administration.go lines 147-152). -/
def CommandRequest.SetValues (method : String) (params : List (String × PValue)) : CommandRequest :=
  { JSONrpc := "2.0", ID := 1, Method := method, Params := params }

/-- json.Marshal of a CommandRequest: fields in declaration order under
their tags; the params field is omitted for an empty map (omitempty). -/
def serializeCommandRequest (r : CommandRequest) : String :=
  "\x7b\"jsonrpc\":\"" ++ escapeJsonString r.JSONrpc ++ "\",\"method\":\""
    ++ escapeJsonString r.Method ++ "\""
    ++ (if r.Params.isEmpty then "" else ",\"params\":" ++ serializeParams r.Params)
    ++ ",\"id\":" ++ toString r.ID ++ "\x7d"

/-- createJsonCommand (administration.go lines 504-524). -/
def createJsonCommand (action : String) (params : List String) : Except String String :=
  match lookupCmd CommandMap action with
  | none => .error ("The Command " ++ action ++ " is unknown.")
  | some cmd =>
      match cmd.CreateParameterMap params with
      | .error e => .error e
      | .ok paramMap => .ok (serializeCommandRequest (CommandRequest.SetValues cmd.KodiName paramMap))

/-! ## The JSON-RPC error envelope -/

/-- Stack contains detailed information about the problem causing elements
of the request (administration.go lines 121-125).  The Go field Type is
rendered Type' because Type is reserved in Lean. -/
structure Stack where
  Name : String
  Type' : String
  Message : String
deriving DecidableEq

/-- Data contains the parts of the request which caused the error
(administration.go lines 113-117). -/
structure Data where
  Message : String
  Method : String
  Stack : Kodi.Stack
deriving DecidableEq

/-- Error is the part of the JSONRPC error response which contains the
error data (administration.go lines 105-109). -/
structure Error where
  Code : Int
  Data : Kodi.Data
  Message : String
deriving DecidableEq

/-- ErrorResponse is the foundation for the JSONRPC error returned by Kodi
(administration.go lines 97-101). -/
structure ErrorResponse where
  Error : Kodi.Error
  ID : Int
  JsonRPC : String
deriving DecidableEq

/-- Zero value of the Go Stack struct. -/
def emptyStack : Stack := { Name := "", Type' := "", Message := "" }

/-- Zero value of the Go Data struct. -/
def emptyData : Data := { Message := "", Method := "", Stack := emptyStack }

/-- Zero value of the Go Error struct: in particular Code is 0. -/
def emptyError : Error := { Code := 0, Data := emptyData, Message := "" }

/-! json.Unmarshal of a response body into an ErrorResponse: a field absent
from the body (or null) leaves the zero value in place; a field present
with the wrong JSON shape is an unmarshal type error, modelled as none. -/

def decodeStringField (fs : JFields) (k : String) : Option String :=
  match fs.get? k with
  | none => some ""
  | some .jnull => some ""
  | some (.jstr s) => some s
  | some _ => none

def decodeIntField (fs : JFields) (k : String) : Option Int :=
  match fs.get? k with
  | none => some 0
  | some .jnull => some 0
  | some (.jnum n) => some n
  | some _ => none

def decodeStackObj (fs : JFields) : Option Stack :=
  match decodeStringField fs "name", decodeStringField fs "type", decodeStringField fs "message" with
  | some n, some t, some m => some { Name := n, Type' := t, Message := m }
  | _, _, _ => none

def decodeStackField (fs : JFields) : Option Stack :=
  match fs.get? "stack" with
  | none => some emptyStack
  | some .jnull => some emptyStack
  | some (.jobj sfs) => decodeStackObj sfs
  | some _ => none

def decodeDataObj (fs : JFields) : Option Data :=
  match decodeStringField fs "message", decodeStringField fs "method", decodeStackField fs with
  | some m, some me, some st => some { Message := m, Method := me, Stack := st }
  | _, _, _ => none

def decodeDataField (fs : JFields) : Option Data :=
  match fs.get? "data" with
  | none => some emptyData
  | some .jnull => some emptyData
  | some (.jobj dfs) => decodeDataObj dfs
  | some _ => none

def decodeErrorObj (fs : JFields) : Option Error :=
  match decodeIntField fs "code", decodeDataField fs, decodeStringField fs "message" with
  | some c, some d, some m => some { Code := c, Data := d, Message := m }
  | _, _, _ => none

def decodeErrorField (fs : JFields) : Option Error :=
  match fs.get? "error" with
  | none => some emptyError
  | some .jnull => some emptyError
  | some (.jobj efs) => decodeErrorObj efs
  | some _ => none

/-- Decoding a whole response body.  Absence of the error field yields the
zero Error value, whose Code is 0. -/
def decodeErrorResponse (v : JValue) : Option ErrorResponse :=
  match v with
  | .jobj fs =>
      match decodeErrorField fs, decodeIntField fs "id", decodeStringField fs "jsonrpc" with
      | some e, some i, some j => some { Error := e, ID := i, JsonRPC := j }
      | _, _, _ => none
  | _ => none

/-- createJsonError (administration.go lines 483-498) composes a readable
message from an ErrorResponse, appending each non-empty piece in turn. -/
def createJsonError (errorResponse : ErrorResponse) : String :=
  let message : String := ""
  let message := if errorResponse.Error.Data.Message ≠ "" then
      message ++ errorResponse.Error.Data.Message ++ " " else message
  let message := if errorResponse.Error.Data.Stack.Message ≠ "" then
      message ++ errorResponse.Error.Data.Stack.Message ++ " regarding " else message
  let message := if errorResponse.Error.Data.Stack.Name ≠ "" then
      message ++ "parameter \"" ++ errorResponse.Error.Data.Stack.Name ++ "\" " else message
  let message := if errorResponse.Error.Data.Stack.Type' ≠ "" then
      message ++ "of type \"" ++ errorResponse.Error.Data.Stack.Type' ++ "\"" else message
  message

/-! ## The request dispatcher

The network is abstracted into an oracle mapping each HTTP exchange (by its
position in the repeat sequence) to its outcome: either a failure of the
transport or body read, or a successfully read response body. -/

inductive Exchange where
  | failed (msg : String)
  | body (v : JValue)

/-- Placeholder for the text of an encoding/json unmarshal error; no claim
depends on its wording. -/
def jsonUnmarshalError : String := "json: cannot unmarshal response body"

/-- sendRequest (administration.go lines 448-480) for one exchange: a
transport or read failure is returned as is; otherwise the body is decoded
and a non-zero error code is turned into the composed message. -/
def sendRequestModel (e : Exchange) : Except String Unit :=
  match e with
  | .failed msg => .error msg
  | .body v =>
      match decodeErrorResponse v with
      | none => .error jsonUnmarshalError
      | some errorResponse =>
          if errorResponse.Error.Code ≠ 0 then .error (createJsonError errorResponse)
          else .ok ()

/-- The repeat loop of ExecuteCommand: `err` starts as the nil error from
createJsonCommand and is overwritten by every iteration, so the loop never
breaks early and the final value is the last iteration's result. -/
def runRepeats (exchanges : Nat → Exchange) (n : Nat) : Except String Unit :=
  (List.range n).foldl (fun _ i => sendRequestModel (exchanges i)) (.ok ())

/-- ExecuteCommand (administration.go lines 434-445), returning the error
result together with the number of HTTP requests sent.  Host and port only
form the URL and are absorbed by the exchange oracle. -/
def executeCommand (exchanges : Nat → Exchange) (action : String) (params : List String) :
    Except String Unit × Nat :=
  let rp := getRepeatCount action params
  match createJsonCommand action rp.2 with
  | .error e => (.error e, 0)
  | .ok _ => (runRepeats exchanges rp.1, rp.1)

/-! ## Helper lemmas -/

theorem string_eq_of_data (s t : String) (h : s.data = t.data) : s = t := by
  cases s; cases t; exact congrArg String.mk h

theorem data_append (s t : String) : (s ++ t).data = s.data ++ t.data := rfl

theorem lookupCmd_eq_none (l : List (String × Command)) (s : String)
    (h : ∀ p ∈ l, p.1 ≠ s) : lookupCmd l s = none := by
  induction l with
  | nil => rfl
  | cons p rest ih =>
      obtain ⟨k, c⟩ := p
      simp only [lookupCmd]
      rw [if_neg (h ⟨k, c⟩ (List.mem_cons_self _ _))]
      exact ih fun q hq => h q (List.mem_cons_of_mem _ hq)

theorem commandMap_keys : CommandMap.map Prod.fst = commandNames := rfl

theorem lookupCmd_commandMap_eq_none (s : String) (h : s ∉ commandNames) :
    lookupCmd CommandMap s = none := by
  apply lookupCmd_eq_none
  intro p hp hps
  apply h
  rw [← commandMap_keys]
  exact hps ▸ List.mem_map_of_mem Prod.fst hp

/-! ## The claims -/

/-- Claim C9: for every token list whose first token is exactly +, ++, -,
or --, the seek parameter builder returns playerid 1 with value
smallforward, bigforward, smallbackward, or bigbackward respectively,
succeeding without consulting any other token. -/
theorem c9_seek_symbols :
    (∀ rest : List String, seekCreateParameterMap ("+" :: rest) =
        .ok [("playerid", .pnum 1), ("value", .pstr "smallforward")])
    ∧ (∀ rest : List String, seekCreateParameterMap ("++" :: rest) =
        .ok [("playerid", .pnum 1), ("value", .pstr "bigforward")])
    ∧ (∀ rest : List String, seekCreateParameterMap ("-" :: rest) =
        .ok [("playerid", .pnum 1), ("value", .pstr "smallbackward")])
    ∧ (∀ rest : List String, seekCreateParameterMap ("--" :: rest) =
        .ok [("playerid", .pnum 1), ("value", .pstr "bigbackward")]) :=
  ⟨fun _ => rfl, fun _ => rfl, fun _ => rfl, fun _ => rfl⟩

/-- Claim C3: with a non-symbolic first token the seek builder splits the
last token on the colon; exactly 3 parts give hours, minutes, seconds,
exactly 2 give minutes and seconds, any other count fails with the illegal
parameter message; milliseconds are fixed at 0; the empty token list fails
with the not-enough-parameters message; and the token 01:02:03 yields
hours 1, minutes 2, seconds 3, milliseconds 0. -/
theorem c3_seek_time_parsing :
    (seekCreateParameterMap [] =
      .error "Not enough parameters. See \"help seek\" for usage information.")
    ∧ (∀ p0 rest, p0 ≠ "+" → p0 ≠ "++" → p0 ≠ "-" → p0 ≠ "--" →
        seekCreateParameterMap (p0 :: rest) =
          seekTimeFromParts (goSplit ((p0 :: rest).getLast!) ':'))
    ∧ (∀ a b c hv mv sv, parseTimeNumber a = .ok hv → parseTimeNumber b = .ok mv →
        parseTimeNumber c = .ok sv →
        seekTimeFromParts [a, b, c] =
          .ok [("playerid", .pnum 1), ("value", .ptime hv mv sv 0)])
    ∧ (∀ a b mv sv, parseTimeNumber a = .ok mv → parseTimeNumber b = .ok sv →
        seekTimeFromParts [a, b] =
          .ok [("playerid", .pnum 1), ("value", .ptime 0 mv sv 0)])
    ∧ (∀ parts : List String, parts.length ≠ 2 → parts.length ≠ 3 →
        seekTimeFromParts parts =
          .error "Illegal parameter. See \"help seek\" for usage information.")
    ∧ seekCreateParameterMap ["01:02:03"] =
        .ok [("playerid", .pnum 1), ("value", .ptime 1 2 3 0)] := by
  refine ⟨rfl, ?_, ?_, ?_, ?_, rfl⟩
  · intro p0 rest h1 h2 h3 h4
    simp [seekCreateParameterMap, h1, h2, h3, h4]
  · intro a b c hv mv sv ha hb hc
    simp [seekTimeFromParts, seekMMSS, List.get!, ha, hb, hc]
  · intro a b mv sv ha hb
    simp [seekTimeFromParts, seekMMSS, List.get!, ha, hb]
  · intro parts h2 h3
    simp [seekTimeFromParts, seekMMSS, h2, h3]

theorem c3_seek_time_parsing_witness :
    seekTimeFromParts ["04", "05", "06"] =
      .ok [("playerid", .pnum 1), ("value", .ptime 4 5 6 0)] :=
  c3_seek_time_parsing.2.2.1 "04" "05" "06" 4 5 6 rfl rfl rfl

/-- Claim C4 counterexample: a non-numeric component fails with the
strconv.Atoi message, which names the offending raw string but not the
range [0,59]; none of the digits of that range appear in the message. -/
theorem c4_range_message_counterexample :
    parseTimeNumber "ab" = .error "strconv.Atoi: parsing \"ab\": invalid syntax"
    ∧ seekCreateParameterMap ["ab:10"] =
        .error "strconv.Atoi: parsing \"ab\": invalid syntax"
    ∧ ("strconv.Atoi: parsing \"ab\": invalid syntax".data.contains '0' = false
       ∧ "strconv.Atoi: parsing \"ab\": invalid syntax".data.contains '5' = false
       ∧ "strconv.Atoi: parsing \"ab\": invalid syntax".data.contains '9' = false) := by
  refine ⟨rfl, rfl, ?_, ?_, ?_⟩ <;> decide

/-- Claim C4 (amended): hours, minutes and seconds all pass through
parseTimeNumber with the same 0-59 bound; an out-of-range value fails with
the message naming the raw string and the range 0 to 59, while a
non-numeric value fails with the integer-parse error, which names the raw
string only. -/
theorem c4_time_component_bounds :
    (∀ s n, goAtoi s = .ok n → 0 ≤ n → n ≤ 59 → parseTimeNumber s = .ok n)
    ∧ (∀ s n, goAtoi s = .ok n → 59 < n ∨ n < 0 →
        parseTimeNumber s =
          .error ("A time-number needs to be between 0 and 59, but was " ++ s))
    ∧ (∀ s e, goAtoi s = .error e → parseTimeNumber s = .error e)
    ∧ seekCreateParameterMap ["02:75"] =
        .error "A time-number needs to be between 0 and 59, but was 75"
    ∧ seekCreateParameterMap ["60:02:03"] =
        .error "A time-number needs to be between 0 and 59, but was 60" := by
  refine ⟨?_, ?_, ?_, rfl, rfl⟩
  · intro s n h h0 h59
    simp only [parseTimeNumber, h]
    rw [if_neg (by omega)]
  · intro s n h hr
    simp only [parseTimeNumber, h]
    rw [if_pos (by omega)]
  · intro s e h
    simp [parseTimeNumber, h]

theorem c4_time_component_bounds_witness :
    parseTimeNumber "99" =
      .error "A time-number needs to be between 0 and 59, but was 99" :=
  c4_time_component_bounds.2.1 "99" 99 rfl (Or.inl (by norm_num))

/-- Claim C5: only the four directional actions with a non-empty token list
consume a trailing integer token of value at least 1 as the repeat count,
removing it from the list; in every other situation the count is 1 and the
list is untouched. -/
theorem c5_repeat_count :
    (∀ action params, action ≠ "down" → action ≠ "up" → action ≠ "left" →
        action ≠ "right" → getRepeatCount action params = (1, params))
    ∧ (∀ action, getRepeatCount action [] = (1, []))
    ∧ (∀ action params (n : Int),
        (action = "down" ∨ action = "up" ∨ action = "left" ∨ action = "right") →
        params ≠ [] → goAtoi params.getLast! = .ok n → 1 ≤ n →
        getRepeatCount action params = (n.toNat, params.dropLast))
    ∧ (∀ action params (n : Int),
        (action = "down" ∨ action = "up" ∨ action = "left" ∨ action = "right") →
        params ≠ [] → goAtoi params.getLast! = .ok n → n < 1 →
        getRepeatCount action params = (1, params))
    ∧ (∀ action params e,
        (action = "down" ∨ action = "up" ∨ action = "left" ∨ action = "right") →
        params ≠ [] → goAtoi params.getLast! = .error e →
        getRepeatCount action params = (1, params))
    ∧ getRepeatCount "left" ["5"] = (5, [])
    ∧ getRepeatCount "left" ["notanumber"] = (1, ["notanumber"]) := by
  refine ⟨?_, ?_, ?_, ?_, ?_, rfl, rfl⟩
  · intro action params h1 h2 h3 h4
    simp [getRepeatCount, h1, h2, h3, h4]
  · intro action
    simp [getRepeatCount]
  · intro action params n hor hne ha h1n
    have hl : 0 < params.length := List.length_pos.mpr hne
    unfold getRepeatCount
    rw [if_pos (And.intro hl hor)]
    simp only [ha]
    rw [if_neg (by omega)]
  · intro action params n hor hne ha hn1
    have hl : 0 < params.length := List.length_pos.mpr hne
    unfold getRepeatCount
    rw [if_pos (And.intro hl hor)]
    simp only [ha]
    rw [if_pos hn1]
  · intro action params e hor hne ha
    have hl : 0 < params.length := List.length_pos.mpr hne
    unfold getRepeatCount
    rw [if_pos (And.intro hl hor)]
    simp only [ha]

theorem c5_repeat_count_witness :
    getRepeatCount "up" ["3", "7"] = (7, ["3"]) :=
  c5_repeat_count.2.2.1 "up" ["3", "7"] 7 (Or.inr (Or.inl rfl)) (by decide) rfl
    (by norm_num)

/-- Claim C10: GetCommandForName dereferences the nil pointer a map miss
returns (the fault is modelled as none) for every unregistered string, and
returns normally exactly for the 18 registered command names. -/
theorem c10_lookup_nil_deref :
    (∀ s, s ∉ commandNames → GetCommandForName s = none)
    ∧ (∀ s, s ∈ commandNames → ∃ c, GetCommandForName s = some (c, true))
    ∧ commandNames.length = 18 := by
  refine ⟨?_, ?_, rfl⟩
  · intro s h
    simp [GetCommandForName, lookupCmd_commandMap_eq_none s h]
  · intro s h
    simp only [commandNames, List.mem_cons, List.not_mem_nil, or_false] at h
    rcases h with rfl | rfl | rfl | rfl | rfl | rfl | rfl | rfl | rfl | rfl | rfl |
      rfl | rfl | rfl | rfl | rfl | rfl | rfl <;> exact ⟨_, rfl⟩

theorem c10_lookup_nil_deref_witness :
    GetCommandForName "volume" = none
    ∧ (∃ c, GetCommandForName "seek" = some (c, true)) :=
  ⟨c10_lookup_nil_deref.1 "volume" (by decide),
   c10_lookup_nil_deref.2.1 "seek" (by decide)⟩

/-- Claim C6: every registered CLI name resolves to the remote method of
the table, and an unknown name fails with the unknown-command message
before any request is built or sent. -/
theorem c6_registry_table :
    ((lookupCmd CommandMap "play").map Command.KodiName = some "Player.PlayPause")
    ∧ ((lookupCmd CommandMap "pause").map Command.KodiName = some "Player.PlayPause")
    ∧ ((lookupCmd CommandMap "stop").map Command.KodiName = some "Player.Stop")
    ∧ ((lookupCmd CommandMap "mute").map Command.KodiName = some "Application.SetMute")
    ∧ ((lookupCmd CommandMap "seek").map Command.KodiName = some "Player.Seek")
    ∧ ((lookupCmd CommandMap "speed").map Command.KodiName = some "Player.Speed")
    ∧ ((lookupCmd CommandMap "action").map Command.KodiName = some "Input.Select")
    ∧ ((lookupCmd CommandMap "context").map Command.KodiName = some "Input.ContextMenu")
    ∧ ((lookupCmd CommandMap "info").map Command.KodiName = some "Input.Info")
    ∧ ((lookupCmd CommandMap "home").map Command.KodiName = some "Input.Home")
    ∧ ((lookupCmd CommandMap "back").map Command.KodiName = some "Input.Back")
    ∧ ((lookupCmd CommandMap "left").map Command.KodiName = some "Input.Left")
    ∧ ((lookupCmd CommandMap "right").map Command.KodiName = some "Input.Right")
    ∧ ((lookupCmd CommandMap "up").map Command.KodiName = some "Input.Up")
    ∧ ((lookupCmd CommandMap "down").map Command.KodiName = some "Input.Down")
    ∧ ((lookupCmd CommandMap "notify").map Command.KodiName = some "GUI.ShowNotification")
    ∧ ((lookupCmd CommandMap "clean").map Command.KodiName = some "VideoLibrary.Clean")
    ∧ ((lookupCmd CommandMap "update").map Command.KodiName = some "VideoLibrary.Scan")
    ∧ (∀ s, s ∉ commandNames →
        lookupCmd CommandMap s = none
        ∧ (∀ ps, createJsonCommand s ps = .error ("The Command " ++ s ++ " is unknown."))
        ∧ (∀ ex ps, executeCommand ex s ps =
            (.error ("The Command " ++ s ++ " is unknown."), 0))) := by
  refine ⟨rfl, rfl, rfl, rfl, rfl, rfl, rfl, rfl, rfl, rfl, rfl, rfl, rfl, rfl, rfl,
    rfl, rfl, rfl, ?_⟩
  intro s h
  have hn : lookupCmd CommandMap s = none := lookupCmd_commandMap_eq_none s h
  have hd : s ≠ "down" := fun e => h (by rw [e]; decide)
  have hu : s ≠ "up" := fun e => h (by rw [e]; decide)
  have hle : s ≠ "left" := fun e => h (by rw [e]; decide)
  have hri : s ≠ "right" := fun e => h (by rw [e]; decide)
  refine ⟨hn, ?_, ?_⟩
  · intro ps
    simp [createJsonCommand, hn]
  · intro ex ps
    simp [executeCommand, getRepeatCount, createJsonCommand, hn, hd, hu, hle, hri]

theorem c6_registry_table_witness :
    createJsonCommand "bogus" ["x"] = .error "The Command bogus is unknown." :=
  (c6_registry_table.2.2.2.2.2.2.2.2.2.2.2.2.2.2.2.2.2.2 "bogus" (by decide)).2.1 ["x"]

/-- Claim C7: every serialized request envelope carries protocol version
2.0, identifier 1 and the looked-up remote method, and the params field is
omitted entirely, not serialized as an empty object or null, when the
builder returned an empty payload. -/
theorem c7_envelope :
    (∀ action cmd params pm, lookupCmd CommandMap action = some cmd →
        cmd.CreateParameterMap params = .ok pm →
        createJsonCommand action params =
          .ok ("\x7b\"jsonrpc\":\"2.0\",\"method\":\"" ++ escapeJsonString cmd.KodiName
            ++ "\""
            ++ (if pm.isEmpty then "" else ",\"params\":" ++ serializeParams pm)
            ++ ",\"id\":" ++ "1" ++ "\x7d"))
    ∧ createJsonCommand "action" [] =
        .ok "\x7b\"jsonrpc\":\"2.0\",\"method\":\"Input.Select\",\"id\":1\x7d"
    ∧ createJsonCommand "play" [] =
        .ok "\x7b\"jsonrpc\":\"2.0\",\"method\":\"Player.PlayPause\",\"params\":\x7b\"playerid\":1\x7d,\"id\":1\x7d" := by
  refine ⟨?_, rfl, rfl⟩
  intro action cmd params pm h1 h2
  simp only [createJsonCommand, h1, h2]
  rfl

theorem c7_envelope_witness :
    createJsonCommand "mute" ["x"] =
      .ok "\x7b\"jsonrpc\":\"2.0\",\"method\":\"Application.SetMute\",\"params\":\x7b\"mute\":\"toggle\"\x7d,\"id\":1\x7d" :=
  c7_envelope.1 "mute"
    { CliName := "mute", KodiName := "Application.SetMute",
      Description := "Mutes or unmutes the audio.",
      ParametersDescription := [],
      CreateParameterMap := fun _ => .ok [("mute", .pstr "toggle")] }
    ["x"] [("mute", .pstr "toggle")] rfl rfl

/-- The spec example body with the jsonrpc and id members only, without an
error member. -/
def c8noErrorBody : JValue :=
  .jobj (.fcons "jsonrpc" (.jstr "2.0") (.fcons "id" (.jnum 1) .fnil))

/-- The spec example body whose error member carries code 0. -/
def c8zeroCodeBody : JValue :=
  .jobj (.fcons "error"
    (.jobj (.fcons "code" (.jnum 0) (.fcons "message" (.jstr "OK") .fnil))) .fnil)

/-- Claim C8: a decoded response with error code 0, or with no error field
at all, is treated as success and the dispatcher continues. -/
theorem c8_zero_error_success :
    (∀ v r, decodeErrorResponse v = some r → r.Error.Code = 0 →
        sendRequestModel (.body v) = .ok ())
    ∧ (∀ fs r, JFields.get? fs "error" = none →
        decodeErrorResponse (.jobj fs) = some r → r.Error.Code = 0)
    ∧ decodeErrorResponse c8noErrorBody =
        some { Error := emptyError, ID := 1, JsonRPC := "2.0" }
    ∧ sendRequestModel (.body c8noErrorBody) = .ok ()
    ∧ sendRequestModel (.body c8zeroCodeBody) = .ok ()
    ∧ executeCommand (fun _ => .body c8noErrorBody) "down" ["2"] = (.ok (), 2) := by
  refine ⟨?_, ?_, rfl, rfl, rfl, rfl⟩
  · intro v r hd hc
    simp [sendRequestModel, hd, hc]
  · intro fs r hget hd
    simp only [decodeErrorResponse, decodeErrorField, hget] at hd
    cases hI : decodeIntField fs "id" <;> cases hS : decodeStringField fs "jsonrpc" <;>
      simp only [hI, hS] at hd
    · cases hd
    · cases hd
    · cases hd
    · injection hd with hd
      exact hd ▸ rfl

theorem c8_zero_error_success_witness :
    sendRequestModel (.body c8noErrorBody) = .ok () :=
  c8_zero_error_success.1 c8noErrorBody { Error := emptyError, ID := 1, JsonRPC := "2.0" }
    rfl rfl

/-- The decoded response of the C2 example: error code 402 with
data.message Invalid params, stack.name title, stack.type string, and no
stack message. -/
def c2response : ErrorResponse :=
  { Error := { Code := 402,
               Data := { Message := "Invalid params", Method := "GUI.ShowNotification",
                         Stack := { Name := "title", Type' := "string", Message := "" } },
               Message := "Invalid params." },
    ID := 1, JsonRPC := "2.0" }

/-- The C2 example as a raw response body (no stack.message member). -/
def c2body : JValue :=
  .jobj (.fcons "error"
    (.jobj (.fcons "code" (.jnum 402)
      (.fcons "message" (.jstr "Invalid params.")
        (.fcons "data" (.jobj (.fcons "message" (.jstr "Invalid params")
          (.fcons "method" (.jstr "GUI.ShowNotification")
            (.fcons "stack" (.jobj (.fcons "name" (.jstr "title")
              (.fcons "type" (.jstr "string") .fnil))) .fnil)))) .fnil))))
    (.fcons "id" (.jnum 1) (.fcons "jsonrpc" (.jstr "2.0") .fnil)))

/-- Claim C2 counterexample: on the example response the composed message
has no regarding, because the stack message is empty; the code produces
the regarding separator only together with a non-empty stack message. -/
theorem c2_message_counterexample :
    decodeErrorResponse c2body = some c2response
    ∧ createJsonError c2response = "Invalid params parameter \"title\" of type \"string\""
    ∧ createJsonError c2response ≠ "Invalid params regarding parameter \"title\" of type \"string\""
    ∧ sendRequestModel (.body c2body) =
        .error "Invalid params parameter \"title\" of type \"string\"" := by
  refine ⟨rfl, rfl, ?_, rfl⟩
  decide

/-- Claim C2 (amended): the reported message is the concatenation, in
order, of four optional segments, each omitted when its field is empty:
the data message with a trailing space, the stack message suffixed with
regarding, the stack name quoted after the word parameter, and the stack
type quoted after of type; with an empty stack message the example
composes without regarding. -/
theorem c2_error_message_composition :
    (∀ r : ErrorResponse, createJsonError r = String.join (List.filterMap id
        [if r.Error.Data.Message ≠ "" then some (r.Error.Data.Message ++ " ") else none,
         if r.Error.Data.Stack.Message ≠ "" then
           some (r.Error.Data.Stack.Message ++ " regarding ") else none,
         if r.Error.Data.Stack.Name ≠ "" then
           some ("parameter \"" ++ r.Error.Data.Stack.Name ++ "\" ") else none,
         if r.Error.Data.Stack.Type' ≠ "" then
           some ("of type \"" ++ r.Error.Data.Stack.Type' ++ "\"") else none]))
    ∧ createJsonError c2response =
        "Invalid params parameter \"title\" of type \"string\"" := by
  refine ⟨?_, rfl⟩
  intro r
  simp only [createJsonError]
  split_ifs <;>
    · apply string_eq_of_data
      simp [String.join, data_append, List.append_assoc]

/-- Response body of the first exchange in the C1 scenario: a non-zero
error code. -/
def c1errorBody : JValue :=
  .jobj (.fcons "error" (.jobj (.fcons "code" (.jnum 404)
    (.fcons "data" (.jobj (.fcons "message" (.jstr "Not Found") .fnil)) .fnil))) .fnil)

/-- Response body of the later exchanges in the C1 scenario: no error. -/
def c1okBody : JValue :=
  .jobj (.fcons "jsonrpc" (.jstr "2.0") (.fcons "id" (.jnum 1) .fnil))

/-- The C1 exchange oracle: the first request is answered with the error
body, every later one with the success body. -/
def c1exchanges : Nat → Exchange :=
  fun i => if i = 0 then .body c1errorBody else .body c1okBody

/-- Claim C1 counterexample: with repeat count 2 the first response carries
the non-zero code 404, yet both requests are sent and the dispatcher
reports success, because the loop overwrites the error of every earlier
repeat with the result of the next one. -/
theorem c1_abort_counterexample :
    (getRepeatCount "down" ["2"]).1 = 2
    ∧ sendRequestModel (c1exchanges 0) = .error "Not Found "
    ∧ executeCommand c1exchanges "down" ["2"] = (.ok (), 2) :=
  ⟨rfl, rfl, rfl⟩

/-- Claim C1 (amended): an error response never aborts the repeat
sequence: once the command string is built, exactly repeatCount requests
are sent and the reported result is that of the final repeat alone. -/
theorem c1_repeats_never_aborted (exchanges : Nat → Exchange) (action : String)
    (params : List String) (s : String)
    (h : createJsonCommand action (getRepeatCount action params).2 = .ok s) :
    executeCommand exchanges action params =
      (runRepeats exchanges (getRepeatCount action params).1,
       (getRepeatCount action params).1)
    ∧ ∀ n : Nat, runRepeats exchanges (n + 1) = sendRequestModel (exchanges n) := by
  constructor
  · simp [executeCommand, h]
  · intro n
    simp [runRepeats, List.range_succ]

theorem c1_repeats_never_aborted_witness :
    executeCommand c1exchanges "down" ["2"] = (runRepeats c1exchanges 2, 2) :=
  (c1_repeats_never_aborted c1exchanges "down" ["2"]
    "\x7b\"jsonrpc\":\"2.0\",\"method\":\"Input.Down\",\"id\":1\x7d" rfl).1

end Kodi
